import Mathlib

/-!
Verification of the cloud-doc-pipeline document lifecycle handlers.

This file shallowly embeds the three lambda handlers of the repository
(`src/lambdas/app.py`, `src/lambdas/s3_ingest.py`,
`src/lambdas/process_document.py`) as pure Lean functions over an explicit
pipeline state (metadata table, audit log, object store), and proves the
frozen specification claims about them.

Modelling conventions:
- DynamoDB stream images are association lists of typed attribute values.
- The metadata table and the object store are modelled as functions from
  keys to optional items (DynamoDB / S3 are key-value stores).
- Timestamps, generated UUIDs, and the results of external library calls
  (PyPDF2 page parsing, urllib unescaping, S3 object fetch) are passed in
  as explicit parameters, since they are opaque collaborators of the core.
- Python exceptions are modelled by an `err` field in the step result; a
  raised exception aborts the batch loop, exactly as in the source.
-/

/-- A DynamoDB-stream typed attribute value: `{"S": ...}`, `{"N": ...}`,
or any other attribute type (map, list, binary, bool), which the handlers
never read a string or number out of. -/
inductive AttrVal where
  | S (s : String)
  | N (n : String)
  | other
deriving Repr, DecidableEq

/-- A stream record image (`NewImage`): a Python dict from attribute name
to typed attribute value, modelled as an association list. -/
abbrev Image := List (String × AttrVal)

/-- Python `new_image.get(name)`. -/
def lookupAttr (img : Image) (name : String) : Option AttrVal :=
  (img.find? (fun p => p.1 == name)).map (fun p => p.2)

/-- `_get_str_attr` from `process_document.py`: the `"S"` field of the
named attribute, or `None` when the attribute is absent or not
string-typed. -/
def get_str_attr (img : Image) (name : String) : Option String :=
  match lookupAttr img name with
  | some (AttrVal.S s) => some s
  | _ => none

/-- `_get_num_attr` from `process_document.py`: the `"N"` field of the
named attribute parsed as an integer, or `None` when absent, not
number-typed, or unparseable. -/
def get_num_attr (img : Image) (name : String) : Option Int :=
  match lookupAttr img name with
  | some (AttrVal.N n) => n.toInt?
  | _ => none

/-- `_is_meta_item` from `process_document.py`:
`new_image.get("sk", {}).get("S") == "META#v1"`. -/
def is_meta_item (img : Image) : Bool :=
  get_str_attr img "sk" == some "META#v1"

/-- `_derive_document_id_from_pk` from `process_document.py`: the part of
`pk` after the first `#` when `pk` starts with `DOC#`, else `None`. -/
def derive_document_id_from_pk (pk : String) : Option String :=
  if "DOC#".data.isPrefixOf pk.data then some (String.mk (pk.data.drop 4)) else none

/-- Python truthiness on an optional string: `None` and `""` are falsy. -/
def pyTruthyStr : Option String → Option String
  | some s => if s = "" then none else some s
  | none => none

/-- Python's `str.split("/")`: splits a character list at every `'/'`,
keeping empty segments, so the result always has one more segment than
there are slashes. -/
def splitOnSlash : List Char → List (List Char)
  | [] => [[]]
  | c :: rest =>
    let r := splitOnSlash rest
    if c = '/' then [] :: r
    else (c :: r.headD []) :: r.tail

/-- `_extract_document_id_from_s3_key` from `s3_ingest.py`: split the key
on `/`; require at least 4 segments, first segment `documents`, non-empty
second segment; return the second segment. -/
def extract_document_id_from_s3_key (s3Key : String) : Option String :=
  match splitOnSlash s3Key.data with
  | p0 :: p1 :: _ :: _ :: _ =>
    if p0 ≠ "documents".data then none
    else if p1 = [] then none
    else some (String.mk p1)
  | _ => none

/-- Python `str.strip()`: remove leading and trailing whitespace
(modelled with `Char.isWhitespace`). -/
def pyStrip (l : List Char) : List Char :=
  ((l.dropWhile Char.isWhitespace).reverse.dropWhile Char.isWhitespace).reverse

/-- The preview pipeline of `extract_pdf_metadata`:
`first_page_text.strip().replace("\x00", "")[:500]`. -/
def textPreviewOfPage (firstPageText : List Char) : List Char :=
  ((pyStrip firstPageText).filter (fun c => c ≠ Char.ofNat 0)).take 500

/-- The result of `PyPDF2.PdfReader` on the fetched bytes, opaque to the
core: the list of pages, each carrying the result of `extract_text()`
(`none` models a `None` return). -/
structure ParsedPdf where
  pageTexts : List (Option (List Char))
deriving Repr, DecidableEq

/-- `extract_pdf_metadata` from `s3_ingest.py`: the page count, and a
preview of the first page's text (stripped, NUL-free, at most 500
characters), or `""` when the document has no pages. -/
def extract_pdf_metadata (pdf : ParsedPdf) : Int × String :=
  let pageCount : Int := pdf.pageTexts.length
  let preview : String :=
    if 0 < pdf.pageTexts.length then
      String.mk (textPreviewOfPage ((pdf.pageTexts.headD none).getD []))
    else ""
  (pageCount, preview)

/-- The `META#v1` item of one document in the DynamoDB table. Fields that
a code path may leave unset are optional; `status` and `updated_at` are
set by every write this system performs. -/
structure MetaItem where
  document_id : Option String
  filename : Option String
  bucket : Option String
  s3_key : Option String
  status : String
  version : Option Int
  created_at : Option String
  updated_at : String
  page_count : Option Int
  text_preview : Option String
  processed_at : Option String
  processing_version : Option Int
  processed_output_bucket : Option String
  processed_output_key : Option String
deriving Repr, DecidableEq

/-- An audit item (`AUDIT#<ts>` sort key). The free-form `details`
payload is omitted: no claim depends on it. -/
structure AuditEntry where
  pk : String
  sk : String
  document_id : String
  event_type : String
  timestamp : String
deriving Repr, DecidableEq

/-- The derived artifact built by `_build_processed_summary`
(`process_document.py`); its fields are exactly the keys of the JSON
document `json.dumps` serialises. -/
structure ProcessedSummary where
  document_id : String
  status : String
  processed_at : String
  filename : Option String
  bucket : Option String
  s3_key : Option String
  page_count : Option Int
  text_preview : String
  processing_version : Int
deriving Repr, DecidableEq

/-- `_build_processed_summary` from `process_document.py`. -/
def build_processed_summary (new_image : Image) (document_id processed_at : String) :
    ProcessedSummary :=
  { document_id := document_id
    status := "PROCESSED"
    processed_at := processed_at
    filename := get_str_attr new_image "filename"
    bucket := get_str_attr new_image "bucket"
    s3_key := get_str_attr new_image "s3_key"
    page_count := get_num_attr new_image "page_count"
    text_preview := (get_str_attr new_image "text_preview").getD ""
    processing_version := 1 }

/-- The shared mutable state both handlers act on: the metadata table
(partition key `DOC#<id>`, sort key `META#v1`, modelled as a key-value
map), the append-only audit log, and the object store (bucket and key to
stored summary artifact). -/
structure PipelineState where
  metas : String → Option MetaItem
  audits : List AuditEntry
  objects : String → String → Option ProcessedSummary

/-- DynamoDB `update_item`/`put_item` on the metadata row: key-value
upsert. -/
def setMeta (ms : String → Option MetaItem) (pk : String) (item : MetaItem) :
    String → Option MetaItem :=
  fun k => if k = pk then some item else ms k

/-- S3 `put_object`: key-value upsert into the object store. -/
def putObject (os : String → String → Option ProcessedSummary)
    (bucket key : String) (content : ProcessedSummary) :
    String → String → Option ProcessedSummary :=
  fun b k => if b = bucket ∧ k = key then some content else os b k

/-- The modelled Python exceptions that abort a batch: a botocore
`ClientError` (here: the conditional check failing, or a fetch failing)
and a `KeyError` from a missing dict key. -/
inductive ProcErr where
  | clientError
  | keyError
deriving Repr, DecidableEq

/-- Result of handling one record: the state after all side effects the
source performed before returning or raising, and the exception raised,
if any. -/
structure StepResult where
  state : PipelineState
  err : Option ProcErr

/-- One DynamoDB stream record as seen by `process_document.lambda_handler`:
`record.get("eventName")` and `record.get("dynamodb", {}).get("NewImage")`. -/
structure StreamRecord where
  eventName : Option String
  newImage : Option Image

/-- The unconditional `update_item` of `s3_ingest.py`: set
status/updated_at/page_count/text_preview, creating the item when the key
is absent (DynamoDB upsert semantics). -/
def applyUploadUpdate (old : Option MetaItem) (pageCount : Int)
    (preview now : String) : MetaItem :=
  match old with
  | some m =>
    { m with status := "UPLOADED", updated_at := now,
             page_count := some pageCount, text_preview := some preview }
  | none =>
    { document_id := none, filename := none, bucket := none, s3_key := none,
      status := "UPLOADED", version := none, created_at := none,
      updated_at := now, page_count := some pageCount,
      text_preview := some preview, processed_at := none,
      processing_version := none, processed_output_bucket := none,
      processed_output_key := none }

/-- The field assignments of the conditional `update_item` of
`process_document.py` (applied only when the condition holds). -/
def applyProcessedUpdate (m : MetaItem) (bucketName processedKey now : String) :
    MetaItem :=
  { m with status := "PROCESSED", processed_at := some now,
           processing_version := some 1, updated_at := now,
           processed_output_bucket := some bucketName,
           processed_output_key := some processedKey }

/-- `document_id = _get_str_attr(new_image, "document_id") or
_derive_document_id_from_pk(pk)`, combined with the subsequent
`if not document_id` check: `some` exactly when the loop proceeds. -/
def pyDocId (img : Image) (pk : String) : Option String :=
  match pyTruthyStr (get_str_attr img "document_id") with
  | some s => some s
  | none => pyTruthyStr (derive_document_id_from_pk pk)

/-- The `try` block of `process_document.lambda_handler` for one accepted
notification: build the summary, put it to the object store, apply the
conditional PROCESSED update, and on success append the
DOCUMENT_PROCESSED audit item. A failed condition raises a `ClientError`,
which the source catches, logs, and re-raises. -/
def processCore (bucketName : String) (st : PipelineState) (img : Image)
    (pk documentId now : String) : StepResult :=
  let processedKey := "documents/" ++ documentId ++ "/processed/summary.json"
  let summary := build_processed_summary img documentId now
  let st1 : PipelineState :=
    { st with objects := putObject st.objects bucketName processedKey summary }
  match st1.metas pk with
  | some m =>
    if m.status = "UPLOADED" then
      let st2 : PipelineState :=
        { st1 with metas := setMeta st1.metas pk
                     (applyProcessedUpdate m bucketName processedKey now) }
      let st3 : PipelineState :=
        { st2 with audits := st2.audits ++
            [{ pk := pk, sk := "AUDIT#" ++ now, document_id := documentId,
               event_type := "DOCUMENT_PROCESSED", timestamp := now }] }
      ⟨st3, none⟩
    else ⟨st1, some ProcErr.clientError⟩
  | none => ⟨st1, some ProcErr.clientError⟩

/-- The body of the per-record loop of `process_document.lambda_handler`:
skip unless eventName is INSERT/MODIFY, the new image is present and
non-empty, the record is the META item, and the new status is UPLOADED;
read `pk`/`sk` (a missing one raises `KeyError`); skip when no document
id can be derived; otherwise run the `try` block. -/
def processRecordStep (bucketName : String) (st : PipelineState)
    (r : StreamRecord) (now : String) : StepResult :=
  if r.eventName = some "INSERT" ∨ r.eventName = some "MODIFY" then
    match r.newImage with
    | some img =>
      if img.isEmpty then ⟨st, none⟩
      else if is_meta_item img then
        if get_str_attr img "status" = some "UPLOADED" then
          match lookupAttr img "pk", lookupAttr img "sk" with
          | some (AttrVal.S pk), some (AttrVal.S _sk) =>
            match pyDocId img pk with
            | some documentId => processCore bucketName st img pk documentId now
            | none => ⟨st, none⟩
          | _, _ => ⟨st, some ProcErr.keyError⟩
        else ⟨st, none⟩
      else ⟨st, none⟩
    | none => ⟨st, none⟩
  else ⟨st, none⟩

/-- `process_document.lambda_handler` over a batch: records paired with
the wall-clock timestamp read while handling each; a raised exception
aborts the loop. -/
def processBatch (bucketName : String) (st : PipelineState) :
    List (StreamRecord × String) → StepResult
  | [] => ⟨st, none⟩
  | (r, now) :: rest =>
    let s := processRecordStep bucketName st r now
    match s.err with
    | none => processBatch bucketName s.state rest
    | some e => ⟨s.state, some e⟩

/-- One S3 event record as seen by `s3_ingest.lambda_handler`: the bucket
name and object key dug out of the nested dicts with `.get` defaults. -/
structure IngestRecord where
  bucketName : Option String
  objectKey : Option String
deriving Repr, DecidableEq

/-- The body of the per-record loop of `s3_ingest.lambda_handler`.
`unquote` is `urllib.parse.unquote_plus` and `s3Get` is the composition
of `s3.get_object` and `PyPDF2.PdfReader`, both opaque collaborators;
`s3Get` returning `none` models a fetch/parse exception, which the source
re-raises. -/
def ingestStep (unquote : String → String)
    (s3Get : String → String → Option ParsedPdf)
    (st : PipelineState) (r : IngestRecord) (now : String) : StepResult :=
  match pyTruthyStr r.bucketName, pyTruthyStr r.objectKey with
  | some bucketName, some rawKey =>
    let s3Key := unquote rawKey
    match extract_document_id_from_s3_key s3Key with
    | none => ⟨st, none⟩
    | some documentId =>
      let pk := "DOC#" ++ documentId
      match s3Get bucketName s3Key with
      | none => ⟨st, some ProcErr.clientError⟩
      | some pdf =>
        let meta := extract_pdf_metadata pdf
        let st1 : PipelineState :=
          { st with metas := setMeta st.metas pk
                      (applyUploadUpdate (st.metas pk) meta.1 meta.2 now) }
        let st2 : PipelineState :=
          { st1 with audits := st1.audits ++
              [{ pk := pk, sk := "AUDIT#" ++ now, document_id := documentId,
                 event_type := "DOCUMENT_UPLOADED", timestamp := now }] }
        ⟨st2, none⟩
  | _, _ => ⟨st, none⟩

/-- `s3_ingest.lambda_handler` over a batch of records, each paired with
its wall-clock timestamp; a raised exception aborts the loop. -/
def ingestBatch (unquote : String → String)
    (s3Get : String → String → Option ParsedPdf)
    (st : PipelineState) : List (IngestRecord × String) → StepResult
  | [] => ⟨st, none⟩
  | (r, now) :: rest =>
    let s := ingestStep unquote s3Get st r now
    match s.err with
    | none => ingestBatch unquote s3Get s.state rest
    | some e => ⟨s.state, some e⟩

/-- A parsed JSON value, the result of `json.loads` (numbers as integers;
no claim involves fractional numbers). -/
inductive JValue where
  | null
  | bool (b : Bool)
  | num (n : Int)
  | str (s : String)
  | arr (xs : List JValue)
  | obj (fields : List (String × JValue))
deriving Repr

/-- Python truthiness of a JSON value: `None`, `False`, `0`, `""`, `[]`
and the empty dict are falsy. -/
def jFalsy : JValue → Bool
  | JValue.null => true
  | JValue.bool b => !b
  | JValue.num n => n == 0
  | JValue.str s => s == ""
  | JValue.arr xs => xs.isEmpty
  | JValue.obj fs => fs.isEmpty

/-- `isinstance(v, str)`. -/
def JValue.isStr : JValue → Bool
  | JValue.str _ => true
  | _ => false

/-- Whether `json.loads` produced a dict. -/
def JValue.isObj : JValue → Bool
  | JValue.obj _ => true
  | _ => false

/-- Dict field lookup `body.get(key)` (valid only on an object). -/
def jLookup (fields : List (String × JValue)) (key : String) : Option JValue :=
  ((fields.find? (fun p => p.1 == key)).map (fun p => p.2))

/-- The outcome of `json.loads(raw_body)`: either a `JSONDecodeError` or
a parsed value. -/
inductive BodyParse where
  | malformed
  | parsed (j : JValue)
deriving Repr

/-- `_response(status_code, body)` from `app.py`. -/
structure Response where
  statusCode : Int
  body : JValue
deriving Repr

/-- A write issued through the registration endpoint's batch writer. -/
inductive RegWrite where
  | metaW (pk : String) (item : MetaItem)
  | auditW (entry : AuditEntry)
deriving Repr, DecidableEq

/-- The metadata item `_handle_post_documents` writes. -/
def registration_metadata_item (bucketName documentId filename createdAt : String) :
    MetaItem :=
  { document_id := some documentId
    filename := some filename
    bucket := some bucketName
    s3_key := some ("documents/" ++ documentId ++ "/original/" ++ filename)
    status := "REGISTERED"
    version := some 1
    created_at := some createdAt
    updated_at := createdAt
    page_count := none, text_preview := none, processed_at := none
    processing_version := none, processed_output_bucket := none
    processed_output_key := none }

/-- The audit item `_handle_post_documents` writes. -/
def registration_audit_item (documentId createdAt : String) : AuditEntry :=
  { pk := "DOC#" ++ documentId
    sk := "AUDIT#" ++ createdAt
    document_id := documentId
    event_type := "DOCUMENT_REGISTERED"
    timestamp := createdAt }

/-- `_handle_post_documents` from `app.py`. `documentId` is the freshly
generated UUID and `createdAt` the wall-clock timestamp, passed in
explicitly; `body` is the outcome of `json.loads` on the request body.
The `Except.error` outcome models the `AttributeError` raised by
`body.get("filename")` when the parsed body is not a dict. Returns the
HTTP response together with the table writes performed. -/
def handle_post_documents (bucketName documentId createdAt : String)
    (body : BodyParse) : Except Unit (Response × List RegWrite) :=
  match body with
  | BodyParse.malformed =>
    Except.ok (⟨400, JValue.obj [("error",
      JValue.str "Request body must be valid JSON")]⟩, [])
  | BodyParse.parsed j =>
    match j with
    | JValue.obj fields =>
      let filename? := jLookup fields "filename"
      match filename? with
      | none =>
        Except.ok (⟨400, JValue.obj [("error",
          JValue.str "filename is required and must be a string")]⟩, [])
      | some v =>
        if jFalsy v ∨ ¬ v.isStr then
          Except.ok (⟨400, JValue.obj [("error",
            JValue.str "filename is required and must be a string")]⟩, [])
        else
          match v with
          | JValue.str filename =>
            let s3Key := "documents/" ++ documentId ++ "/original/" ++ filename
            Except.ok (⟨201, JValue.obj
              [("document_id", JValue.str documentId),
               ("bucket", JValue.str bucketName),
               ("s3_key", JValue.str s3Key),
               ("status", JValue.str "REGISTERED"),
               ("created_at", JValue.str createdAt)]⟩,
              [RegWrite.metaW ("DOC#" ++ documentId)
                 (registration_metadata_item bucketName documentId filename createdAt),
               RegWrite.auditW (registration_audit_item documentId createdAt)])
          | _ => Except.ok (⟨400, JValue.obj [("error",
              JValue.str "filename is required and must be a string")]⟩, [])
    | _ => Except.error ()

/-- `_get_document_id_from_event` from `app.py`: the `document_id` path
parameter when truthy, else the `proxy` fallback when truthy, else
`None`. A missing `pathParameters` dict defaults to the empty dict. -/
def get_document_id_from_event
    (pathParameters : Option (List (String × String))) : Option String :=
  let pp := pathParameters.getD []
  let lk := fun key => ((pp.find? (fun p => p.1 == key)).map (fun p => p.2))
  match pyTruthyStr (lk "document_id") with
  | some d => some d
  | none => pyTruthyStr (lk "proxy")

/-- The body of a retrieval response: the wrapped META item on 200, or a
structured error body. -/
inductive GetBody where
  | document (item : MetaItem)
  | error (msg : String) (document_id : Option String)
deriving Repr, DecidableEq

/-- Retrieval endpoint result. -/
structure GetResult where
  statusCode : Int
  body : GetBody
deriving Repr, DecidableEq

/-- `_handle_get_document` from `app.py`: 400 when no identity path
parameter is present, otherwise `get_item` on (`DOC#<id>`, `META#v1`) and
404 when absent, 200 with the item when present. -/
def handle_get_document (store : String → Option MetaItem)
    (pathParameters : Option (List (String × String))) : GetResult :=
  match get_document_id_from_event pathParameters with
  | none => ⟨400, GetBody.error "document_id path parameter is required" none⟩
  | some docId =>
    match store ("DOC#" ++ docId) with
    | none => ⟨404, GetBody.error "Document not found" (some docId)⟩
    | some item => ⟨200, GetBody.document item⟩

theorem splitOnSlash_ne_nil (l : List Char) : splitOnSlash l ≠ [] := by
  cases l with
  | nil => simp [splitOnSlash]
  | cons c cs => by_cases hc : c = '/' <;> simp [splitOnSlash, hc]

theorem splitOnSlash_append (l₁ l₂ : List Char) (h : '/' ∉ l₁) :
    splitOnSlash (l₁ ++ '/' :: l₂) = l₁ :: splitOnSlash l₂ := by
  induction l₁ with
  | nil => simp [splitOnSlash]
  | cons c cs ih =>
    have hc : c ≠ '/' := fun he => h (by simp [he])
    have hcs := ih (fun hm => h (List.mem_cons_of_mem _ hm))
    simp [splitOnSlash, hcs, hc]

/-- C3. The claim as frozen says a key whose third segment is not
`original` yields `none`; the source never inspects the third segment,
so a key of shape `documents/<id>/<anything>/<file>` still yields the
identity. -/
theorem C3_counterexample :
    extract_document_id_from_s3_key "documents/abc/wrongsegment/file.pdf" = some "abc" := by
  decide

/-- C3 (amended): identity extraction returns `<id>` for every key of
shape `documents/<id>/<seg>/<tail>` with a non-empty slash-free identity
(the third segment is not inspected), and returns `none` exactly for the
shapes the source rejects: fewer than 4 slash-separated segments, first
segment not `documents`, or an empty identity segment. -/
theorem C3_amended :
    (∀ idStr seg rest : String, idStr ≠ "" → '/' ∉ idStr.data → '/' ∉ seg.data →
      extract_document_id_from_s3_key
        ("documents/" ++ idStr ++ "/" ++ seg ++ "/" ++ rest) = some idStr)
  ∧ (∀ key : String,
      ((splitOnSlash key.data).length < 4 ∨
       (splitOnSlash key.data).headD [] ≠ "documents".data ∨
       (splitOnSlash key.data).getD 1 [] = []) →
      extract_document_id_from_s3_key key = none) := by
  constructor
  · intro idStr seg rest h1 h2 h3
    have hdoc : '/' ∉ "documents".data := by decide
    have hdata : ("documents/" ++ idStr ++ "/" ++ seg ++ "/" ++ rest).data
        = "documents".data ++ '/' :: (idStr.data ++ '/' :: (seg.data ++ '/' :: rest.data)) := by
      simp [String.data_append]
    have hid : idStr.data ≠ [] := by
      intro hd
      apply h1
      have : String.mk idStr.data = String.mk "".data := by rw [hd]
      simpa using this
    unfold extract_document_id_from_s3_key
    rw [hdata, splitOnSlash_append _ _ hdoc, splitOnSlash_append _ _ h2,
        splitOnSlash_append _ _ h3]
    rcases hsp : splitOnSlash rest.data with _ | ⟨r0, rtl⟩
    · exact absurd hsp (splitOnSlash_ne_nil _)
    · simp [hid]
  · intro key h
    unfold extract_document_id_from_s3_key
    rcases hsp : splitOnSlash key.data with _ | ⟨p0, _ | ⟨p1, _ | ⟨p2, _ | ⟨p3, ps⟩⟩⟩⟩ <;>
      simp_all
    intro hp0
    rcases h with h | h | h
    · omega
    · exact absurd hp0 h
    · exact h

/-- C3 witness: the amended characterisation applied at a concrete key of
the documented shape. -/
theorem C3_amended_witness :
    extract_document_id_from_s3_key
      ("documents/" ++ "abc" ++ "/" ++ "original" ++ "/" ++ "file.pdf") = some "abc" :=
  C3_amended.1 "abc" "original" "file.pdf" (by decide) (by decide) (by decide)

/-- C5: for every parsed PDF, whatever the first page's text, the
extracted `text_preview` has length at most 500 and contains no NUL
character. -/
theorem C5_preview_bounded_and_nul_free (pdf : ParsedPdf) :
    (extract_pdf_metadata pdf).2.length ≤ 500 ∧
    Char.ofNat 0 ∉ (extract_pdf_metadata pdf).2.data := by
  have hgen : ∀ l : List Char, (String.mk (textPreviewOfPage l)).length ≤ 500 ∧
      Char.ofNat 0 ∉ (String.mk (textPreviewOfPage l)).data := by
    intro l
    constructor
    · show (textPreviewOfPage l).length ≤ 500
      rw [textPreviewOfPage, List.length_take]
      exact Nat.min_le_left _ _
    · show Char.ofNat 0 ∉ textPreviewOfPage l
      intro hmem
      have h1 : Char.ofNat 0 ∈ (pyStrip l).filter (fun c => c ≠ Char.ofNat 0) :=
        List.take_subset _ _ hmem
      have h2 := (List.mem_filter.mp h1).2
      simp at h2
  rcases pdf with ⟨pages⟩
  cases pages with
  | nil => exact ⟨by decide, by decide⟩
  | cons p ps =>
    have hx : (extract_pdf_metadata ⟨p :: ps⟩).2 =
        String.mk (textPreviewOfPage (p.getD [])) := by
      simp [extract_pdf_metadata]
    rw [hx]
    exact ⟨(hgen (p.getD [])).1, (hgen (p.getD [])).2⟩

/-- The empty pipeline: no metadata rows, no audit entries, no stored
objects. -/
def emptyPipelineState : PipelineState :=
  ⟨fun _ => none, [], fun _ _ => none⟩

/-- C4: a change notification whose change type is not insert/modify,
whose new-value image is absent, whose record kind is not the META item,
or whose new status is not exactly UPLOADED, leaves the object store, the
metadata table and the audit log untouched and raises nothing. -/
theorem C4_filtered_notification_is_skipped (bucketName : String)
    (st : PipelineState) (r : StreamRecord) (now : String)
    (h : (r.eventName ≠ some "INSERT" ∧ r.eventName ≠ some "MODIFY")
       ∨ r.newImage = none
       ∨ (∃ img, r.newImage = some img ∧ is_meta_item img = false)
       ∨ (∃ img, r.newImage = some img ∧ get_str_attr img "status" ≠ some "UPLOADED")) :
    processRecordStep bucketName st r now = ⟨st, none⟩ := by
  unfold processRecordStep
  rcases h with ⟨h1, h2⟩ | h | ⟨img, himg, hmeta⟩ | ⟨img, himg, hstatus⟩
  · simp [h1, h2]
  · by_cases he : r.eventName = some "INSERT" ∨ r.eventName = some "MODIFY" <;>
      simp [he, h]
  · rw [himg]
    by_cases he : r.eventName = some "INSERT" ∨ r.eventName = some "MODIFY"
    · by_cases hie : img.isEmpty <;> simp [he, hie, hmeta]
    · simp [he]
  · rw [himg]
    by_cases he : r.eventName = some "INSERT" ∨ r.eventName = some "MODIFY"
    · by_cases hie : img.isEmpty
      · simp [he, hie]
      · by_cases hm : is_meta_item img <;> simp [he, hie, hm, hstatus]
    · simp [he]

/-- C4 witness: a REMOVE notification for an existing META image is
skipped. -/
theorem C4_witness :
    processRecordStep "b" emptyPipelineState
      ⟨some "REMOVE", some [("sk", AttrVal.S "META#v1")]⟩ "t" =
      ⟨emptyPipelineState, none⟩ :=
  C4_filtered_notification_is_skipped "b" emptyPipelineState
    ⟨some "REMOVE", some [("sk", AttrVal.S "META#v1")]⟩ "t"
    (Or.inl ⟨by decide, by decide⟩)

/-- C9: an ingest notification record lacking a bucket name or an object
key performs no fetch and no write, raises nothing, and the batch
continues with the remaining records. -/
theorem C9_missing_bucket_or_key_is_skipped
    (unquote : String → String) (s3Get : String → String → Option ParsedPdf)
    (st : PipelineState) (r : IngestRecord) (now : String)
    (rest : List (IngestRecord × String))
    (h : r.bucketName = none ∨ r.objectKey = none) :
    ingestStep unquote s3Get st r now = ⟨st, none⟩ ∧
    ingestBatch unquote s3Get st ((r, now) :: rest) =
      ingestBatch unquote s3Get st rest := by
  have hstep : ingestStep unquote s3Get st r now = ⟨st, none⟩ := by
    unfold ingestStep
    rcases h with h | h
    · rw [h]
      cases hk : pyTruthyStr r.objectKey <;> rfl
    · rw [h]
      cases hb : pyTruthyStr r.bucketName <;> rfl
  refine ⟨hstep, ?_⟩
  rw [ingestBatch, hstep]

/-- C9 witness: a record with no bucket name is skipped and the batch
continues. -/
theorem C9_witness :
    ingestStep (fun s => s) (fun _ _ => none) emptyPipelineState
      ⟨none, some "documents/d/original/a.pdf"⟩ "t" = ⟨emptyPipelineState, none⟩ ∧
    ingestBatch (fun s => s) (fun _ _ => none) emptyPipelineState
      [(⟨none, some "documents/d/original/a.pdf"⟩, "t")] =
      ingestBatch (fun s => s) (fun _ _ => none) emptyPipelineState [] :=
  C9_missing_bucket_or_key_is_skipped (fun s => s) (fun _ _ => none)
    emptyPipelineState ⟨none, some "documents/d/original/a.pdf"⟩ "t" []
    (Or.inl rfl)

/-- C10: a META/UPLOADED change notification whose image carries no
string `document_id` attribute and whose partition key does not start
with `DOC#` is skipped: no artifact write, no record update, no audit
append, no raised error, and the batch continues. -/
theorem C10_underivable_document_id_is_skipped (bucketName : String)
    (st : PipelineState) (r : StreamRecord) (img : Image) (pk : String)
    (now : String) (rest : List (StreamRecord × String))
    (hev : r.eventName = some "INSERT" ∨ r.eventName = some "MODIFY")
    (himg : r.newImage = some img)
    (hmeta : is_meta_item img = true)
    (hstatus : get_str_attr img "status" = some "UPLOADED")
    (hdoc : get_str_attr img "document_id" = none)
    (hpk : lookupAttr img "pk" = some (AttrVal.S pk))
    (hnd : "DOC#".data.isPrefixOf pk.data = false) :
    processRecordStep bucketName st r now = ⟨st, none⟩ ∧
    processBatch bucketName st ((r, now) :: rest) =
      processBatch bucketName st rest := by
  have hsk : lookupAttr img "sk" = some (AttrVal.S "META#v1") := by
    unfold is_meta_item get_str_attr at hmeta
    rcases hl : lookupAttr img "sk" with _ | v
    · rw [hl] at hmeta; simp at hmeta
    · cases v <;> rw [hl] at hmeta <;> simp_all
  have hne : img.isEmpty = false := by
    cases img with
    | nil => simp [lookupAttr] at hsk
    | cons a l => rfl
  have hdocid : pyDocId img pk = none := by
    unfold pyDocId derive_document_id_from_pk
    rw [hdoc, hnd]
    rfl
  have hstep : processRecordStep bucketName st r now = ⟨st, none⟩ := by
    unfold processRecordStep
    rw [himg]
    simp only [hev, if_pos, hne, Bool.false_eq_true, if_neg, hmeta, if_pos,
      hstatus, if_pos, hpk, hsk, hdocid]
    simp [hmeta, hstatus]
  refine ⟨hstep, ?_⟩
  rw [processBatch, hstep]

/-- C10 witness: a META/UPLOADED image whose pk is not `DOC#`-shaped and
which has no document_id attribute is skipped. -/
theorem C10_witness :
    processRecordStep "b" emptyPipelineState
      ⟨some "MODIFY", some [("pk", AttrVal.S "OTHER#1"), ("sk", AttrVal.S "META#v1"),
                            ("status", AttrVal.S "UPLOADED")]⟩ "t" =
      ⟨emptyPipelineState, none⟩ ∧
    processBatch "b" emptyPipelineState
      [(⟨some "MODIFY", some [("pk", AttrVal.S "OTHER#1"), ("sk", AttrVal.S "META#v1"),
                              ("status", AttrVal.S "UPLOADED")]⟩, "t")] =
      processBatch "b" emptyPipelineState [] :=
  C10_underivable_document_id_is_skipped "b" emptyPipelineState
    ⟨some "MODIFY", some [("pk", AttrVal.S "OTHER#1"), ("sk", AttrVal.S "META#v1"),
                          ("status", AttrVal.S "UPLOADED")]⟩
    [("pk", AttrVal.S "OTHER#1"), ("sk", AttrVal.S "META#v1"),
     ("status", AttrVal.S "UPLOADED")]
    "OTHER#1" "t" []
    (Or.inr rfl) rfl (by decide) (by decide) (by decide) (by decide) (by decide)

/-- A META item that has already completed the PROCESSED transition. -/
def processedMetaDoc1 : MetaItem :=
  { document_id := some "doc1", filename := some "a.pdf", bucket := some "b",
    s3_key := some "documents/doc1/original/a.pdf", status := "PROCESSED",
    version := some 1, created_at := some "t0", updated_at := "t1",
    page_count := some 1, text_preview := some "", processed_at := some "t1",
    processing_version := some 1, processed_output_bucket := some "b",
    processed_output_key := some "documents/doc1/processed/summary.json" }

/-- A pipeline state in which document `doc1` is already PROCESSED and
carries its single DOCUMENT_PROCESSED audit entry. -/
def processedStateDoc1 : PipelineState :=
  { metas := fun k => if k = "DOC#doc1" then some processedMetaDoc1 else none
    audits := [{ pk := "DOC#doc1", sk := "AUDIT#t1", document_id := "doc1",
                 event_type := "DOCUMENT_PROCESSED", timestamp := "t1" }]
    objects := fun _ _ => none }

/-- A duplicate delivery of the change notification that already drove
`doc1` to PROCESSED: a MODIFY whose new image is the META item with
status UPLOADED. -/
def duplicateUploadNotification : StreamRecord :=
  { eventName := some "MODIFY"
    newImage := some [("pk", AttrVal.S "DOC#doc1"), ("sk", AttrVal.S "META#v1"),
                      ("status", AttrVal.S "UPLOADED"),
                      ("document_id", AttrVal.S "doc1")] }

/-- C1: evaluation of the handler at the duplicate delivery. The record
is already PROCESSED, so the conditional update's precondition fails; the
source catches the resulting `ClientError` and re-raises it, so the batch
invocation errors instead of succeeding as a no-op. The record does stay
PROCESSED and no second DOCUMENT_PROCESSED audit entry is appended, but
the claimed no-op success and continue-to-next-notification behaviour
does not happen: the batch fails and will be redelivered. -/
theorem C1_duplicate_delivery_raises :
    (processBatch "b" processedStateDoc1
        [(duplicateUploadNotification, "t2")]).err = some ProcErr.clientError ∧
    (processBatch "b" processedStateDoc1
        [(duplicateUploadNotification, "t2")]).state.audits =
      processedStateDoc1.audits ∧
    ((processBatch "b" processedStateDoc1
        [(duplicateUploadNotification, "t2")]).state.metas "DOC#doc1").map
      MetaItem.status = some "PROCESSED" :=
  ⟨by decide, by decide, by decide⟩

/-- A redelivery of the upload notification for `doc1`, arriving after
the document has already been PROCESSED. -/
def redeliveredUploadNotification : IngestRecord :=
  ⟨some "b", some "documents/doc1/original/a.pdf"⟩

/-- C2 counterexample: the claim says status never regresses, but the
ingest watcher's update is unconditional: redelivering the upload
notification to a PROCESSED record drives its status back to UPLOADED. -/
theorem C2_counterexample :
    (processedStateDoc1.metas "DOC#doc1").map MetaItem.status =
      some "PROCESSED" ∧
    (((ingestBatch (fun s => s) (fun _ _ => some ⟨[some []]⟩)
        processedStateDoc1 [(redeliveredUploadNotification, "t3")]).state.metas
        "DOC#doc1").map MetaItem.status) = some "UPLOADED" :=
  ⟨by decide, by decide⟩

theorem processRecordStep_metas_cases (bucketName : String)
    (st : PipelineState) (r : StreamRecord) (now : String) :
    (processRecordStep bucketName st r now).state.metas = st.metas ∨
    ∃ pk docId m, st.metas pk = some m ∧ m.status = "UPLOADED" ∧
      (processRecordStep bucketName st r now).state.metas =
        setMeta st.metas pk (applyProcessedUpdate m bucketName
          ("documents/" ++ docId ++ "/processed/summary.json") now) := by
  unfold processRecordStep processCore
  split <;> try (exact Or.inl rfl)
  split <;> try (exact Or.inl rfl)
  split <;> try (exact Or.inl rfl)
  split <;> try (exact Or.inl rfl)
  split <;> try (exact Or.inl rfl)
  split <;> try (exact Or.inl rfl)
  split <;> try (exact Or.inl rfl)
  dsimp only
  split <;> try (exact Or.inl rfl)
  split <;> try (exact Or.inl rfl)
  right
  refine ⟨_, _, _, ?_, ?_, rfl⟩ <;> assumption

theorem ingestStep_metas_cases (unquote : String → String)
    (s3Get : String → String → Option ParsedPdf) (st : PipelineState)
    (r : IngestRecord) (now : String) :
    (ingestStep unquote s3Get st r now).state.metas = st.metas ∨
    ∃ pk item, item.status = "UPLOADED" ∧
      (ingestStep unquote s3Get st r now).state.metas =
        setMeta st.metas pk item := by
  unfold ingestStep
  split <;> try (exact Or.inl rfl)
  dsimp only
  split <;> try (exact Or.inl rfl)
  split <;> try (exact Or.inl rfl)
  right
  refine ⟨_, _, ?_, rfl⟩
  unfold applyUploadUpdate
  split <;> rfl

/-- C2 (amended): the only transitions either handler can apply to a
metadata row are these: the change event processor either leaves a row
untouched or moves it from UPLOADED to PROCESSED (its update is
conditional on status = UPLOADED, so the PROCESSED transition applies at
most once per UPLOADED state); the ingest watcher either leaves a row
untouched or sets its status to UPLOADED unconditionally — in particular
a redelivered upload notification re-applies UPLOADED and can regress a
PROCESSED record, as the counterexample shows. -/
theorem C2_amended_transitions (bucketName : String) (st : PipelineState)
    (r : StreamRecord) (now : String) (unquote : String → String)
    (s3Get : String → String → Option ParsedPdf) (ir : IngestRecord)
    (k : String) :
    ((processRecordStep bucketName st r now).state.metas k = st.metas k ∨
      ((st.metas k).map MetaItem.status = some "UPLOADED" ∧
       ((processRecordStep bucketName st r now).state.metas k).map
         MetaItem.status = some "PROCESSED"))
  ∧ ((ingestStep unquote s3Get st ir now).state.metas k = st.metas k ∨
      ((ingestStep unquote s3Get st ir now).state.metas k).map
        MetaItem.status = some "UPLOADED") := by
  constructor
  · rcases processRecordStep_metas_cases bucketName st r now with
      h | ⟨pk, docId, m, hm, hs, h⟩
    · left; rw [h]
    · by_cases hk : k = pk
      · right
        subst hk
        rw [h, hm]
        refine ⟨by simp [hs], ?_⟩
        simp [setMeta, applyProcessedUpdate]
      · left; rw [h]; simp [setMeta, hk]
  · rcases ingestStep_metas_cases unquote s3Get st ir now with
      h | ⟨pk, item, hs, h⟩
    · left; rw [h]
    · by_cases hk : k = pk
      · right; subst hk; rw [h]; simp [setMeta, hs]
      · left; rw [h]; simp [setMeta, hk]

/-- C6: for every change notification, either the object store is left
untouched, or exactly one artifact is written, at the deterministic path
`documents/<id>/processed/summary.json` in the configured bucket, with
content built by `_build_processed_summary`; that summary always has
status PROCESSED and processing_version 1, and absent or wrongly-typed
source fields surface as empty/absent artifact fields (the builder is
total) rather than raising. -/
theorem C6_artifact_shape_and_path (bucketName : String) (st : PipelineState)
    (r : StreamRecord) (now : String) :
    ((processRecordStep bucketName st r now).state.objects = st.objects ∨
      ∃ img docId, r.newImage = some img ∧
        (processRecordStep bucketName st r now).state.objects =
          putObject st.objects bucketName
            ("documents/" ++ docId ++ "/processed/summary.json")
            (build_processed_summary img docId now))
  ∧ (∀ img docId t, (build_processed_summary img docId t).status = "PROCESSED" ∧
      (build_processed_summary img docId t).processing_version = 1 ∧
      (build_processed_summary img docId t).document_id = docId ∧
      (build_processed_summary img docId t).processed_at = t ∧
      (build_processed_summary img docId t).text_preview =
        (get_str_attr img "text_preview").getD "")
  ∧ (∀ docId t, build_processed_summary [] docId t =
      { document_id := docId, status := "PROCESSED", processed_at := t,
        filename := none, bucket := none, s3_key := none, page_count := none,
        text_preview := "", processing_version := 1 }) := by
  refine ⟨?_, fun img docId t => ⟨rfl, rfl, rfl, rfl, rfl⟩, fun docId t => rfl⟩
  unfold processRecordStep processCore
  split <;> try (exact Or.inl rfl)
  split <;> try (exact Or.inl rfl)
  split <;> try (exact Or.inl rfl)
  split <;> try (exact Or.inl rfl)
  split <;> try (exact Or.inl rfl)
  split <;> try (exact Or.inl rfl)
  split <;> try (exact Or.inl rfl)
  dsimp only
  split
  · split
    · right
      refine ⟨_, _, ?_, rfl⟩
      assumption
    · right
      refine ⟨_, _, ?_, rfl⟩
      assumption
  · right
    refine ⟨_, _, ?_, rfl⟩
    assumption

/-- C7 counterexample: a request whose body is valid JSON but not an
object (here the array `[]`) has no filename, so the claim requires a
400 response; the source instead calls `.get` on a list, raising an
`AttributeError`, so no response is returned at all. -/
theorem C7_counterexample :
    handle_post_documents "bkt" "doc-1" "t0"
      (BodyParse.parsed (JValue.arr [])) = Except.error () := rfl

/-- C7 (amended): on a malformed body the endpoint returns 400 with no
writes; on a JSON-object body with a non-empty string filename it returns
201 with the documented body and writes the metadata and audit items; on
a JSON-object body whose filename is missing or not a string it returns
400 with no writes; and on a valid-JSON body that is not an object it
raises an unhandled error instead of responding. -/
theorem C7_amended_registration (bucketName documentId createdAt : String) :
    (handle_post_documents bucketName documentId createdAt
        BodyParse.malformed =
      Except.ok (⟨400, JValue.obj [("error",
        JValue.str "Request body must be valid JSON")]⟩, []))
  ∧ (∀ fields s, jLookup fields "filename" = some (JValue.str s) → s ≠ "" →
      handle_post_documents bucketName documentId createdAt
        (BodyParse.parsed (JValue.obj fields)) =
        Except.ok (⟨201, JValue.obj
          [("document_id", JValue.str documentId),
           ("bucket", JValue.str bucketName),
           ("s3_key", JValue.str
             ("documents/" ++ documentId ++ "/original/" ++ s)),
           ("status", JValue.str "REGISTERED"),
           ("created_at", JValue.str createdAt)]⟩,
          [RegWrite.metaW ("DOC#" ++ documentId)
             (registration_metadata_item bucketName documentId s createdAt),
           RegWrite.auditW (registration_audit_item documentId createdAt)]))
  ∧ (∀ fields, (jLookup fields "filename" = none ∨
        ∃ v, jLookup fields "filename" = some v ∧ v.isStr = false) →
      handle_post_documents bucketName documentId createdAt
        (BodyParse.parsed (JValue.obj fields)) =
        Except.ok (⟨400, JValue.obj [("error",
          JValue.str "filename is required and must be a string")]⟩, []))
  ∧ (∀ j : JValue, j.isObj = false →
      handle_post_documents bucketName documentId createdAt
        (BodyParse.parsed j) = Except.error ()) := by
  refine ⟨rfl, ?_, ?_, ?_⟩
  · intro fields s hf hs
    simp only [handle_post_documents, hf]
    simp [jFalsy, JValue.isStr, hs]
  · intro fields h
    rcases h with h | ⟨v, hv, hvs⟩
    · simp only [handle_post_documents, h]
    · simp only [handle_post_documents, hv]
      simp [hvs]
  · intro j hj
    cases j with
    | obj fields => simp [JValue.isObj] at hj
    | null => rfl
    | bool b => rfl
    | num n => rfl
    | str s => rfl
    | arr xs => rfl

/-- C7 witness: registering a well-formed body succeeds with 201 and the
two writes. -/
theorem C7_amended_witness :
    handle_post_documents "bkt" "doc-1" "t0"
      (BodyParse.parsed (JValue.obj [("filename", JValue.str "a.pdf")])) =
      Except.ok (⟨201, JValue.obj
        [("document_id", JValue.str "doc-1"),
         ("bucket", JValue.str "bkt"),
         ("s3_key", JValue.str ("documents/" ++ "doc-1" ++ "/original/" ++ "a.pdf")),
         ("status", JValue.str "REGISTERED"),
         ("created_at", JValue.str "t0")]⟩,
        [RegWrite.metaW ("DOC#" ++ "doc-1")
           (registration_metadata_item "bkt" "doc-1" "a.pdf" "t0"),
         RegWrite.auditW (registration_audit_item "doc-1" "t0")]) :=
  (C7_amended_registration "bkt" "doc-1" "t0").2.1
    [("filename", JValue.str "a.pdf")] "a.pdf" rfl (by decide)

/-- C8: the retrieval endpoint returns 200 with the stored META item when
one exists for the derived identity, 404 when none exists, and 400 when
no identity path parameter is present. -/
theorem C8_retrieval (store : String → Option MetaItem)
    (pathParameters : Option (List (String × String))) :
    (∀ docId item, get_document_id_from_event pathParameters = some docId →
      store ("DOC#" ++ docId) = some item →
      handle_get_document store pathParameters =
        ⟨200, GetBody.document item⟩)
  ∧ (∀ docId, get_document_id_from_event pathParameters = some docId →
      store ("DOC#" ++ docId) = none →
      handle_get_document store pathParameters =
        ⟨404, GetBody.error "Document not found" (some docId)⟩)
  ∧ (get_document_id_from_event pathParameters = none →
      handle_get_document store pathParameters =
        ⟨400, GetBody.error "document_id path parameter is required" none⟩) := by
  refine ⟨?_, ?_, ?_⟩
  · intro docId item hd hs
    unfold handle_get_document
    rw [hd]
    dsimp only
    rw [hs]
  · intro docId hd hs
    unfold handle_get_document
    rw [hd]
    dsimp only
    rw [hs]
  · intro hd
    unfold handle_get_document
    rw [hd]

/-- A one-document store for instantiating the retrieval theorem. -/
def sampleStore : String → Option MetaItem :=
  fun k => if k = "DOC#abc" then some processedMetaDoc1 else none

/-- C8 witness: the three retrieval outcomes at concrete requests. -/
theorem C8_retrieval_witness :
    handle_get_document sampleStore (some [("document_id", "abc")]) =
      ⟨200, GetBody.document processedMetaDoc1⟩ ∧
    handle_get_document sampleStore (some [("document_id", "zzz")]) =
      ⟨404, GetBody.error "Document not found" (some "zzz")⟩ ∧
    handle_get_document sampleStore (some []) =
      ⟨400, GetBody.error "document_id path parameter is required" none⟩ :=
  ⟨(C8_retrieval sampleStore (some [("document_id", "abc")])).1
      "abc" processedMetaDoc1 rfl (by decide),
   (C8_retrieval sampleStore (some [("document_id", "zzz")])).2.1
      "zzz" rfl (by decide),
   (C8_retrieval sampleStore (some [])).2.2 rfl⟩
